import Mathlib

/-!
Shallow embedding of the FM-TimeTracker timesheet-week lifecycle subsystem
(`app/main.py` timesheet routes, `app/models.py` entities,
`app/services_timesheets.py`, `app/dependencies.py`), together with theorems
settling the specification claims about it.

Dates are modelled by their proleptic-Gregorian ordinal (`Int`), as in
Python's `date.toordinal()`: ordinal 1 is Monday 0001-01-01, so
`date.weekday()` is `(ordinal - 1) % 7` with Monday = 0.  Hours are modelled
as rationals.  Database rows live in explicit lists (the heap made explicit);
object mutation becomes in-place replacement in those lists.  An aborted
request (Python `HTTPException`) becomes `Except.error`, which carries no
state change, matching the transaction rollback.
-/

namespace FMT

/-- Embeds `app/models.py` `Role`. -/
inductive Role
  | ADMIN
  | PROGRAMME_MANAGER
  | PROJECT_MANAGER
  | STAFF
deriving DecidableEq

/-- Embeds `app/models.py` `TimesheetWeekStatus`. -/
inductive TimesheetWeekStatus
  | DRAFT
  | SUBMITTED
  | APPROVED
deriving DecidableEq

/-- Embeds `app/models.py` `LeaveStatus`. -/
inductive LeaveStatus
  | PENDING
  | APPROVED
  | REJECTED
deriving DecidableEq

/-- Embeds `app/models.py` `User`, restricted to the fields the timesheet
subsystem reads: primary key, role, and the nullable manager self-reference. -/
structure User where
  id : Nat
  role : Role
  manager_id : Option Nat
deriving DecidableEq

/-- Embeds `app/models.py` `Task`, restricted to the fields the timesheet
subsystem reads: primary key and the running logged-hours accumulator. -/
structure Task where
  id : Nat
  logged_hours : ℚ
deriving DecidableEq

/-- Embeds `app/models.py` `TimesheetEntry` (fields the subsystem touches). -/
structure TimesheetEntry where
  id : Nat
  user_id : Nat
  project_id : Option Nat
  task_id : Option Nat
  entry_date : Int
  hours : ℚ
  description : String
  updated_at : Int
deriving DecidableEq

/-- Embeds `app/models.py` `TimesheetWeekSummary`. -/
structure TimesheetWeekSummary where
  user_id : Nat
  week_start : Int
  week_end : Int
  status : TimesheetWeekStatus
  submit_note : String
  approval_note : String
  submitted_at : Option Int
  approved_at : Option Int
  approver_id : Option Nat
deriving DecidableEq

/-- Embeds `app/models.py` `TimesheetEntryAudit` (append-only log row). -/
structure TimesheetEntryAudit where
  entry_id : Nat
  actor_id : Nat
  action : String
  field_name : String
  old_value : String
  new_value : String
deriving DecidableEq

/-- Embeds `app/models.py` `LeaveRequest` (fields the subsystem touches). -/
structure LeaveRequest where
  id : Nat
  user_id : Nat
  start_date : Int
  end_date : Int
  reason : String
  status : LeaveStatus
  reviewer_id : Option Nat
deriving DecidableEq

/-- The database tables the timesheet subsystem reads and writes, as an
explicit state record. -/
structure DB where
  entries : List TimesheetEntry
  summaries : List TimesheetWeekSummary
  tasks : List Task
  audits : List TimesheetEntryAudit
  users : List User
  leaves : List LeaveRequest
deriving DecidableEq

/-- Embeds Python `HTTPException(status_code, detail)`. -/
structure HTTPError where
  status_code : Nat
  detail : String
deriving DecidableEq

/-- Replace the first element satisfying `p` by `a` (models mutating, through
an ORM identity-mapped reference, the single row a `find`-style query
returned). -/
def replaceFirst {α : Type} (p : α → Bool) (a : α) : List α → List α
  | [] => []
  | x :: xs => if p x then a :: xs else x :: replaceFirst p a xs

/-- Update the task with primary key `tid` (primary keys are unique, so at
most one row is the identity-mapped object Python mutates in place). -/
def updateTaskHours (tasks : List Task) (tid : Nat) (f : ℚ → ℚ) : List Task :=
  tasks.map fun t => if t.id = tid then { t with logged_hours := f t.logged_hours } else t

/-- Embeds `app/main.py` `week_bounds`: Monday–Sunday bounds of the week
containing the target date.  `(d - 1) % 7` is Python's `date.weekday()` on
the ordinal `d`. -/
def week_bounds (target_date : Int) : Int × Int :=
  let week_start := target_date - (target_date - 1) % 7
  (week_start, week_start + 6)

/-- Python's `date.weekday()` on an ordinal: Monday = 0 … Sunday = 6. -/
def pyWeekday (d : Int) : Int := (d - 1) % 7

/-- Embeds `app/services_timesheets.py` `apply_task_logged_hours_edit`.
The Python function mutates `Task` objects in place; here the heap of tasks
is passed explicitly and the `old_task` / `new_task` object references become
the ids of the referenced rows (`none` = Python `None`).  Ids are primary
keys, so id equality is object identity. -/
def apply_task_logged_hours_edit (tasks : List Task)
    (old_task new_task : Option Nat) (old_hours new_hours : ℚ) : List Task :=
  match old_task, new_task with
  | some oid, some nid =>
      if oid = nid then
        updateTaskHours tasks oid fun lh => max (lh + (new_hours - old_hours)) 0
      else
        updateTaskHours (updateTaskHours tasks oid fun lh => max (lh - old_hours) 0)
          nid fun lh => lh + new_hours
  | some oid, none => updateTaskHours tasks oid fun lh => max (lh - old_hours) 0
  | none, some nid => updateTaskHours tasks nid fun lh => lh + new_hours
  | none, none => tasks

/-- String serialization of a date, `str(entry_date)` (the ordinal rendering
abstracts the ISO text; only its use as an opaque serialized value matters). -/
def showDate (d : Int) : String := toString d

/-- String serialization of an hours value, `str(hours)` (numerator/denominator
rendering abstracts the decimal text). -/
def showHours (q : ℚ) : String := toString q.num ++ "/" ++ toString q.den

/-- `str(x or "")` on an optional integer id: Python renders `None` — and,
by falsiness, `0` — as the empty string. -/
def showOptId : Option Nat → String
  | none => ""
  | some n => if n = 0 then "" else toString n

/-- Python truthiness of an optional integer id (`if parsed_task_id:`):
`None` and `0` are falsy. -/
def truthyId : Option Nat → Bool
  | none => false
  | some n => n != 0

/-- The `db.scalar(select(TimesheetWeekSummary).where(user_id, week_start))`
lookup shared by the timesheet routes. -/
def findSummary (summaries : List TimesheetWeekSummary) (uid : Nat) (ws : Int) :
    Option TimesheetWeekSummary :=
  summaries.find? fun s => s.user_id == uid && s.week_start == ws

/-- Python `if summary and summary.status == TimesheetWeekStatus.APPROVED`. -/
def summaryApproved : Option TimesheetWeekSummary → Bool
  | none => false
  | some s => s.status == .APPROVED

/-- Embeds `app/dependencies.py` `require_roles`: the FastAPI dependency that
rejects an authenticated user whose role is not in the allowed set with
403 "Insufficient permissions", before the route body runs. -/
def require_roles (roles : List Role) (current_user : User) : Except HTTPError User :=
  if current_user.role ∈ roles then .ok current_user
  else .error ⟨403, "Insufficient permissions"⟩

/-- Embeds `app/main.py` `create_timesheet_form` (`POST /timesheets/form`).
`next_entry_id` models the primary key `db.flush()` assigns; `now` models
`datetime.utcnow()`; `project_id`/`task_id` arrive already through
`parse_optional_int`. -/
def create_timesheet_form (db : DB) (entry_date : Int) (hours : ℚ)
    (description : String) (project_id task_id : Option Nat)
    (current_user : User) (next_entry_id : Nat) (now : Int) : Except HTTPError DB :=
  if hours ≤ 0 ∨ 24 < hours then
    .error ⟨400, "Hours must be between 0 and 24"⟩
  else
    let week_start := (week_bounds entry_date).1
    let summary := findSummary db.summaries current_user.id week_start
    if summaryApproved summary then
      .error ⟨400, "Approved timesheets cannot be edited."⟩
    else
      let entry : TimesheetEntry :=
        { id := next_entry_id, user_id := current_user.id, project_id := project_id,
          task_id := task_id, entry_date := entry_date, hours := hours,
          description := description, updated_at := now }
      let audit : TimesheetEntryAudit :=
        { entry_id := next_entry_id, actor_id := current_user.id, action := "created",
          field_name := "entry", old_value := "",
          new_value := showDate entry_date ++ " (" ++ showHours hours ++ "h)" }
      let tasks' :=
        if truthyId task_id then
          updateTaskHours db.tasks (task_id.getD 0) fun lh => lh + hours
        else db.tasks
      .ok { db with entries := db.entries ++ [entry],
                    audits := db.audits ++ [audit],
                    tasks := tasks' }

/-- Embeds `app/main.py` `edit_timesheet_form` (`POST /timesheets/{id}/edit`).
The route assigns every field only when the incoming value differs, emitting
one audit row per differing field; the net entry state is all incoming
values.  It never touches `Task.logged_hours`. -/
def edit_timesheet_form (db : DB) (entry_id : Nat) (entry_date : Int) (hours : ℚ)
    (description : String) (project_id task_id : Option Nat)
    (current_user : User) (now : Int) : Except HTTPError DB :=
  match db.entries.find? (fun e => e.id == entry_id) with
  | none => .error ⟨404, "Timesheet entry not found."⟩
  | some entry =>
    if entry.user_id ≠ current_user.id then
      .error ⟨404, "Timesheet entry not found."⟩
    else
      let original_week_start := (week_bounds entry.entry_date).1
      if summaryApproved (findSummary db.summaries current_user.id original_week_start) then
        .error ⟨400, "Approved timesheets cannot be edited."⟩
      else
        let new_week_start := (week_bounds entry_date).1
        let destApproved :=
          if new_week_start = original_week_start then false
          else summaryApproved (findSummary db.summaries current_user.id new_week_start)
        if destApproved then
          .error ⟨400, "Approved timesheets cannot be edited."⟩
        else
          let changes : List (String × String × String) :=
            (if entry.entry_date = entry_date then []
             else [("entry_date", showDate entry.entry_date, showDate entry_date)]) ++
            (if entry.hours = hours then []
             else [("hours", showHours entry.hours, showHours hours)]) ++
            (if entry.description = description then []
             else [("description", entry.description, description)]) ++
            (if entry.project_id = project_id then []
             else [("project_id", showOptId entry.project_id, showOptId project_id)]) ++
            (if entry.task_id = task_id then []
             else [("task_id", showOptId entry.task_id, showOptId task_id)])
          let entry' : TimesheetEntry :=
            { entry with entry_date := entry_date, hours := hours,
                         description := description, project_id := project_id,
                         task_id := task_id, updated_at := now }
          let newAudits : List TimesheetEntryAudit :=
            changes.map fun c =>
              { entry_id := entry.id, actor_id := current_user.id, action := "edited",
                field_name := c.1, old_value := c.2.1, new_value := c.2.2 }
          .ok { db with entries := replaceFirst (fun e => e.id == entry_id) entry' db.entries,
                        audits := db.audits ++ newAudits }

/-- Embeds `app/main.py` `submit_timesheet_week` (`POST /timesheets/submit-week`). -/
def submit_timesheet_week (db : DB) (current_user : User) (week_start : Int)
    (submit_note : String) (now : Int) : Except HTTPError DB :=
  let week_end := week_start + 6
  match findSummary db.summaries current_user.id week_start with
  | some summary =>
    if summary.status = .APPROVED then
      .error ⟨400, "Approved timesheets cannot be resubmitted."⟩
    else
      let summaries' :=
        replaceFirst (fun s => s.user_id == current_user.id && s.week_start == week_start)
          ({ summary with status := .SUBMITTED, submit_note := submit_note,
                          submitted_at := some now }) db.summaries
      .ok { db with summaries := summaries' }
  | none =>
    .ok { db with summaries := db.summaries ++
            [{ user_id := current_user.id, week_start := week_start, week_end := week_end,
               status := .SUBMITTED, submit_note := submit_note, approval_note := "",
               submitted_at := some now, approved_at := none, approver_id := none }] }

/-- Embeds `app/main.py` `approve_timesheet_week` (`POST /timesheets/approve-week`),
including its `require_roles(ADMIN, PROGRAMME_MANAGER, PROJECT_MANAGER)`
dependency. -/
def approve_timesheet_week (db : DB) (actor : User) (week_start : Int)
    (user_id : Nat) (approval_note : String) (now : Int) : Except HTTPError DB :=
  match require_roles [.ADMIN, .PROGRAMME_MANAGER, .PROJECT_MANAGER] actor with
  | .error e => .error e
  | .ok _ =>
    match findSummary db.summaries user_id week_start with
    | none => .error ⟨404, "Timesheet week not found."⟩
    | some summary =>
      if summary.status ≠ .SUBMITTED then
        .error ⟨400, "Timesheet must be submitted before approval."⟩
      else
        match db.users.find? (fun u => u.id == summary.user_id) with
        | none => .error ⟨404, "Timesheet owner not found."⟩
        | some target_user =>
          if actor.role ≠ .ADMIN ∧ target_user.manager_id ≠ some actor.id then
            .error ⟨403, "Only the line manager can approve this timesheet."⟩
          else
            let summaries' :=
              replaceFirst (fun s => s.user_id == user_id && s.week_start == week_start)
                ({ summary with status := .APPROVED, approver_id := some actor.id,
                                approval_note := approval_note,
                                approved_at := some now }) db.summaries
            .ok { db with summaries := summaries' }

/-- Embeds `app/main.py` `unapprove_timesheet_week` (`POST /timesheets/unapprove-week`),
including its role-gate dependency. -/
def unapprove_timesheet_week (db : DB) (actor : User) (week_start : Int)
    (user_id : Nat) (approval_note : String) : Except HTTPError DB :=
  match require_roles [.ADMIN, .PROGRAMME_MANAGER, .PROJECT_MANAGER] actor with
  | .error e => .error e
  | .ok _ =>
    match findSummary db.summaries user_id week_start with
    | none => .error ⟨404, "Timesheet week not found."⟩
    | some summary =>
      if summary.status ≠ .APPROVED then
        .error ⟨400, "Only approved timesheets can be unapproved."⟩
      else
        match db.users.find? (fun u => u.id == summary.user_id) with
        | none => .error ⟨404, "Timesheet owner not found."⟩
        | some target_user =>
          if actor.role ≠ .ADMIN ∧ target_user.manager_id ≠ some actor.id then
            .error ⟨403, "Only the line manager can unapprove this timesheet."⟩
          else
            let summaries' :=
              replaceFirst (fun s => s.user_id == user_id && s.week_start == week_start)
                ({ summary with status := .SUBMITTED, approval_note := approval_note,
                                approved_at := none, approver_id := none }) db.summaries
            .ok { db with summaries := summaries' }

/-- Embeds `app/main.py` `decide_leave` (`POST /leave-requests/{id}/decision`),
including its role-gate dependency. -/
def decide_leave (db : DB) (request_id : Nat) (approve : Bool)
    (current_user : User) : Except HTTPError DB :=
  match require_roles [.ADMIN, .PROGRAMME_MANAGER, .PROJECT_MANAGER] current_user with
  | .error e => .error e
  | .ok _ =>
    match db.leaves.find? (fun l => l.id == request_id) with
    | none => .error ⟨404, "Leave request not found"⟩
    | some leave =>
      match db.users.find? (fun u => u.id == leave.user_id) with
      | none => .error ⟨404, "Leave request owner not found"⟩
      | some target_user =>
        if current_user.role ≠ .ADMIN ∧ target_user.manager_id ≠ some current_user.id then
          .error ⟨403, "Only the line manager can approve this leave."⟩
        else
          let leaves' :=
            replaceFirst (fun l => l.id == request_id)
              ({ leave with status := if approve then .APPROVED else .REJECTED,
                            reviewer_id := some current_user.id }) db.leaves
          .ok { db with leaves := leaves' }

/-- `Except.isOk`, locally (a request succeeded). -/
def isOk {ε α : Type} : Except ε α → Bool
  | .ok _ => true
  | .error _ => false


/-- Updating a task by id rewrites exactly the looked-up task's hours. -/
theorem updateTaskHours_find? (tasks : List Task) (tid : Nat) (f : ℚ → ℚ) :
    ((updateTaskHours tasks tid f).find? (fun t => t.id == tid)).map Task.logged_hours
      = ((tasks.find? (fun t => t.id == tid)).map fun t => f t.logged_hours) := by
  induction tasks with
  | nil => rfl
  | cons x xs ih =>
    by_cases h : x.id = tid
    · simp [updateTaskHours, List.find?_cons, h]
    · simpa [updateTaskHours, List.find?_cons, h] using ih

/-- Updating a task by id leaves every other task untouched. -/
theorem updateTaskHours_filter_ne (tasks : List Task) (tid : Nat) (f : ℚ → ℚ) :
    (updateTaskHours tasks tid f).filter (fun t => t.id != tid)
      = tasks.filter (fun t => t.id != tid) := by
  induction tasks with
  | nil => rfl
  | cons x xs ih =>
    by_cases h : x.id = tid
    · simpa [updateTaskHours, List.filter_cons, h] using ih
    · simpa [updateTaskHours, List.filter_cons, h] using ih

/-- C8: for every calendar date `d`, `week_bounds d` returns
`(week_start, week_end)` where `week_start` is the Monday on or before `d`
(its Python weekday is 0), `week_end = week_start + 6` days, and `d` lies
within `[week_start, week_end]`; the function is a pure total function of
the date. -/
theorem C8_week_bounds_monday (d : Int) :
    pyWeekday (week_bounds d).1 = 0 ∧ (week_bounds d).2 = (week_bounds d).1 + 6
      ∧ (week_bounds d).1 ≤ d ∧ d ≤ (week_bounds d).2 := by
  have h : week_bounds d = (d - (d - 1) % 7, d - (d - 1) % 7 + 6) := rfl
  rw [h]
  unfold pyWeekday
  dsimp only
  omega

/-- C6: when `apply_task_logged_hours_edit` is called with the same task as
old and new, that task's resulting `logged_hours` is
`max (old_total + (new_hours - old_hours)) 0`, and every other task is left
unmodified. -/
theorem C6_same_task_delta (tasks : List Task) (tid : Nat) (old_hours new_hours : ℚ) :
    ((apply_task_logged_hours_edit tasks (some tid) (some tid) old_hours new_hours).find?
        (fun t => t.id == tid)).map Task.logged_hours
      = ((tasks.find? (fun t => t.id == tid)).map fun t =>
          max (t.logged_hours + (new_hours - old_hours)) 0)
  ∧ (apply_task_logged_hours_edit tasks (some tid) (some tid) old_hours new_hours).filter
        (fun t => t.id != tid)
      = tasks.filter (fun t => t.id != tid) := by
  constructor
  · simpa [apply_task_logged_hours_edit] using updateTaskHours_find? tasks tid _
  · simpa [apply_task_logged_hours_edit] using updateTaskHours_filter_ne tasks tid _

/-- Updating task hours with a nonnegativity-preserving function preserves
nonnegativity of every `logged_hours`. -/
theorem updateTaskHours_nonneg {tasks : List Task} {tid : Nat} {f : ℚ → ℚ}
    (h : ∀ t ∈ tasks, 0 ≤ t.logged_hours) (hf : ∀ x : ℚ, 0 ≤ x → 0 ≤ f x) :
    ∀ t ∈ updateTaskHours tasks tid f, 0 ≤ t.logged_hours := by
  intro t ht
  simp only [updateTaskHours, List.mem_map] at ht
  obtain ⟨s, hs, rfl⟩ := ht
  split
  · exact hf _ (h s hs)
  · exact h s hs

/-- C7 (amended): for every call to `apply_task_logged_hours_edit` — same-task
edit, reassignment, or link added/removed — with `new_hours ≥ 0` (as every
hours value produced by entry creation is), each task's `logged_hours` is
≥ 0 afterward whenever every task's `logged_hours` was ≥ 0 before:
subtractions are clamped at zero and the addition branch adds a nonnegative
amount.  The unrestricted claim ("any hours values") is refuted by
`C7_counterexample`: the addition branch is not clamped. -/
theorem C7_amended (tasks : List Task) (old_task new_task : Option Nat)
    (old_hours new_hours : ℚ) (hnh : 0 ≤ new_hours)
    (h : ∀ t ∈ tasks, 0 ≤ t.logged_hours) :
    ∀ t ∈ apply_task_logged_hours_edit tasks old_task new_task old_hours new_hours,
      0 ≤ t.logged_hours := by
  have hmax : ∀ x : ℚ, 0 ≤ x → 0 ≤ max x 0 := fun x _ => le_max_right x 0
  have hadd : ∀ x : ℚ, 0 ≤ x → 0 ≤ x + new_hours := fun x hx => by linarith
  match old_task, new_task with
  | some oid, some nid =>
    by_cases hid : oid = nid
    · simpa [apply_task_logged_hours_edit, hid] using
        updateTaskHours_nonneg h (fun x _ => le_max_right _ 0)
    · simp only [apply_task_logged_hours_edit, hid, if_neg]
      exact updateTaskHours_nonneg
        (updateTaskHours_nonneg h (fun x _ => le_max_right _ 0)) hadd
  | some oid, none =>
    simpa [apply_task_logged_hours_edit] using
      updateTaskHours_nonneg h (fun x _ => le_max_right _ 0)
  | none, some nid =>
    simpa [apply_task_logged_hours_edit] using updateTaskHours_nonneg h hadd
  | none, none => simpa [apply_task_logged_hours_edit] using h

/-- Witness for `C7_amended` at a concrete reassignment input. -/
theorem C7_witness :
    (0 : ℚ) ≤ 1 ∧
    ∀ t ∈ apply_task_logged_hours_edit [⟨10, 2⟩] (some 10) (some 11) 3 1, 0 ≤ t.logged_hours :=
  ⟨by norm_num,
   C7_amended [⟨10, 2⟩] (some 10) (some 11) 3 1 (by norm_num) (by intro t ht; simp at ht; simp [ht])⟩

/-- C7 counterexample: with a negative `new_hours` value (`-1`), the addition
branch of `apply_task_logged_hours_edit` drives a task with `logged_hours = 0`
to `-1 < 0`: the result is not clamped in every branch, so the claim as
stated ("with any hours values ... every result is clamped") is false. -/
theorem C7_counterexample :
    (apply_task_logged_hours_edit [⟨11, 0⟩] none (some 11) 0 (-1)).map Task.logged_hours = [-1]
  ∧ ¬ (0 ≤ (-1 : ℚ)) := by
  refine ⟨?_, by norm_num⟩
  simp [apply_task_logged_hours_edit, updateTaskHours]

/-- C1: evaluation of the code at the claim's own scenario.  An entry of
3.0 hours linked to task 10 (task 10 at 8.0 logged hours, task 11 at 1.0) is
edited to 4.5 hours linked to task 11; the edit succeeds, yet both tasks'
`logged_hours` are unchanged — `edit_timesheet_form` never invokes
`apply_task_logged_hours_edit` (nor any other task-hours update), contrary
to the claim that task 10 decreases by 3.0 and task 11 increases by 4.5. -/
theorem C1_edit_does_not_touch_task_hours :
    (edit_timesheet_form
        ⟨[⟨1, 1, none, some 10, 8, 3, "w", 0⟩], [], [⟨10, 8⟩, ⟨11, 1⟩], [],
          [⟨1, .STAFF, none⟩], []⟩
        1 8 (9/2) "w" none (some 11) ⟨1, .STAFF, none⟩ 5).map DB.tasks
      = .ok [⟨10, 8⟩, ⟨11, 1⟩] := by rfl


/-- C2 (amended): `create_timesheet_form` rejects hours outside `0 < h ≤ 24`
with the validation error, and every entry it persists satisfies the range
whenever the pre-existing entries do.  The original invariant over edit
operations is refuted by `C2_counterexample`: `edit_timesheet_form` performs
no hours validation. -/
theorem C2_create_validates_hours (db : DB) (entry_date : Int) (hours : ℚ)
    (description : String) (project_id task_id : Option Nat) (u : User)
    (next_entry_id : Nat) (now : Int) :
    (¬ (0 < hours ∧ hours ≤ 24) →
      create_timesheet_form db entry_date hours description project_id task_id u next_entry_id now
        = .error ⟨400, "Hours must be between 0 and 24"⟩)
  ∧ (∀ db', create_timesheet_form db entry_date hours description project_id task_id u next_entry_id now
        = .ok db' →
      (∀ e ∈ db.entries, 0 < e.hours ∧ e.hours ≤ 24) →
      ∀ e ∈ db'.entries, 0 < e.hours ∧ e.hours ≤ 24) := by
  constructor
  · intro hbad
    have hc : hours ≤ 0 ∨ 24 < hours := by
      by_contra hno
      push_neg at hno
      exact hbad ⟨lt_of_not_le (fun h => hbad ⟨by linarith [hno.1], hno.2⟩), hno.2⟩
    unfold create_timesheet_form
    rw [if_pos hc]
  · intro db' hok hprev e he
    unfold create_timesheet_form at hok
    by_cases hc : hours ≤ 0 ∨ 24 < hours
    · rw [if_pos hc] at hok
      exact absurd hok (by simp)
    · rw [if_neg hc] at hok
      dsimp only at hok
      split at hok
      · exact absurd hok (by simp)
      · cases hok
        push_neg at hc
        simp only [List.mem_append, List.mem_singleton] at he
        rcases he with he | rfl
        · exact hprev e he
        · exact ⟨hc.1, hc.2⟩

/-- Witness for `C2_create_validates_hours` at hours = 25. -/
theorem C2_witness :
    ¬ (0 < (25 : ℚ) ∧ (25 : ℚ) ≤ 24) ∧
    create_timesheet_form ⟨[], [], [], [], [], []⟩ 8 25 "w" none none ⟨1, .STAFF, none⟩ 1 0
      = .error ⟨400, "Hours must be between 0 and 24"⟩ :=
  ⟨by norm_num,
   (C2_create_validates_hours ⟨[], [], [], [], [], []⟩ 8 25 "w" none none ⟨1, .STAFF, none⟩ 1 0).1
     (by norm_num)⟩

/-- C2 counterexample: editing an existing 3-hour entry to 25 hours succeeds
and persists `hours = 25 > 24` — the edit route has no hours-range check, so
the claimed invariant `0 < hours ≤ 24` does not survive `editEntry`. -/
theorem C2_counterexample :
    (edit_timesheet_form ⟨[⟨1, 1, none, none, 8, 3, "w", 0⟩], [], [], [], [], []⟩
        1 8 25 "w" none none ⟨1, .STAFF, none⟩ 5).map (fun db => db.entries.map (·.hours))
      = .ok [25]
  ∧ ¬ ((25 : ℚ) ≤ 24) := by
  exact ⟨by rfl, by norm_num⟩

/-- C4 (amended): if the summary of the week of the entry's date is APPROVED,
`create_timesheet_form` always fails — with "Approved timesheets cannot be
edited." whenever the hours pass the range check, which runs first (see
`C4_counterexample`) — and `edit_timesheet_form` fails with that error
whenever the entry's original week, or a different destination week, is
APPROVED; an `Except.error` result carries no state, so no entry, audit row,
or task change is persisted. -/
theorem C4_approved_week_gate
    (db : DB) (u : User) (d : Int) (hours : ℚ) (desc : String)
    (pid tid : Option Nat) (next_entry_id : Nat) (now : Int)
    (entry : TimesheetEntry) (entry_id : Nat) (d2 : Int) :
    (summaryApproved (findSummary db.summaries u.id (week_bounds d).1) = true →
        isOk (create_timesheet_form db d hours desc pid tid u next_entry_id now) = false
      ∧ (0 < hours → hours ≤ 24 →
          create_timesheet_form db d hours desc pid tid u next_entry_id now
            = .error ⟨400, "Approved timesheets cannot be edited."⟩))
  ∧ (db.entries.find? (fun e => e.id == entry_id) = some entry →
     entry.user_id = u.id →
     (summaryApproved (findSummary db.summaries u.id (week_bounds entry.entry_date).1) = true
        ∨ ((week_bounds d2).1 ≠ (week_bounds entry.entry_date).1
            ∧ summaryApproved (findSummary db.summaries u.id (week_bounds d2).1) = true)) →
     edit_timesheet_form db entry_id d2 hours desc pid tid u now
        = .error ⟨400, "Approved timesheets cannot be edited."⟩) := by
  constructor
  · intro happ
    by_cases hc : hours ≤ 0 ∨ 24 < hours
    · refine ⟨?_, ?_⟩
      · unfold create_timesheet_form
        rw [if_pos hc]
        rfl
      · intro h1 h2
        rcases hc with hc | hc
        · exact absurd h1 (by linarith)
        · exact absurd h2 (by linarith)
    · have : create_timesheet_form db d hours desc pid tid u next_entry_id now
          = .error ⟨400, "Approved timesheets cannot be edited."⟩ := by
        unfold create_timesheet_form
        rw [if_neg hc]
        dsimp only
        rw [if_pos happ]
      exact ⟨by rw [this]; rfl, fun _ _ => this⟩
  · intro hfind howner hgate
    unfold edit_timesheet_form
    rw [hfind]
    dsimp only
    rw [if_neg (by simp [howner])]
    by_cases horig :
        summaryApproved (findSummary db.summaries u.id (week_bounds entry.entry_date).1) = true
    · rw [if_pos horig]
    · rcases hgate with hgate | ⟨hne, hdest⟩
      · exact absurd hgate horig
      · rw [if_neg horig]
        rw [if_neg hne, if_pos hdest]

/-- Witness for `C4_approved_week_gate`: concrete edit in an APPROVED week. -/
theorem C4_witness :
    edit_timesheet_form
        ⟨[⟨1, 1, none, none, 8, 3, "w", 0⟩], [⟨1, 8, 14, .APPROVED, "", "", none, none, none⟩],
          [], [], [⟨1, .STAFF, none⟩], []⟩
        1 8 3 "w" none none ⟨1, .STAFF, none⟩ 5
      = .error ⟨400, "Approved timesheets cannot be edited."⟩ :=
  (C4_approved_week_gate
      ⟨[⟨1, 1, none, none, 8, 3, "w", 0⟩], [⟨1, 8, 14, .APPROVED, "", "", none, none, none⟩],
        [], [], [⟨1, .STAFF, none⟩], []⟩
      ⟨1, .STAFF, none⟩ 8 3 "w" none none 1 5 ⟨1, 1, none, none, 8, 3, "w", 0⟩ 1 8).2
    (by rfl) (by rfl) (Or.inl (by rfl))

/-- C4 counterexample: creating an entry with 25 hours in an APPROVED week
fails with the hours-validation message, not "Approved timesheets cannot be
edited." — the hours check precedes the approved-week gate, so the claimed
error message does not hold for every hours combination. -/
theorem C4_counterexample :
    create_timesheet_form
        ⟨[], [⟨1, 8, 14, .APPROVED, "", "", none, none, none⟩], [], [], [⟨1, .STAFF, none⟩], []⟩
        8 25 "w" none none ⟨1, .STAFF, none⟩ 1 0
      = .error ⟨400, "Hours must be between 0 and 24"⟩
  ∧ (⟨400, "Hours must be between 0 and 24"⟩ : HTTPError)
      ≠ (⟨400, "Approved timesheets cannot be edited."⟩ : HTTPError) := by
  refine ⟨?_, by decide⟩
  unfold create_timesheet_form
  rw [if_pos (by norm_num)]

/-- C10: an edit request for an existing entry owned by a different user
fails with exactly the same error as an edit request for a missing entry id —
HTTP 404, "Timesheet entry not found." — and, the result being an error, no
state change is persisted: non-ownership is indistinguishable from absence. -/
theorem C10_not_owner_reads_as_not_found
    (db : DB) (entry_id : Nat) (d : Int) (hours : ℚ) (desc : String)
    (pid tid : Option Nat) (u : User) (now : Int) (entry : TimesheetEntry)
    (hfind : db.entries.find? (fun e => e.id == entry_id) = some entry)
    (howner : entry.user_id ≠ u.id) :
    edit_timesheet_form db entry_id d hours desc pid tid u now
      = .error ⟨404, "Timesheet entry not found."⟩
  ∧ ∀ db2 : DB, db2.entries.find? (fun e => e.id == entry_id) = none →
      edit_timesheet_form db2 entry_id d hours desc pid tid u now
        = .error ⟨404, "Timesheet entry not found."⟩ := by
  constructor
  · unfold edit_timesheet_form
    rw [hfind]
    dsimp only
    rw [if_pos howner]
  · intro db2 hnone
    unfold edit_timesheet_form
    rw [hnone]

/-- Witness for `C10_not_owner_reads_as_not_found` on concrete states. -/
theorem C10_witness :
    edit_timesheet_form ⟨[⟨1, 7, none, none, 8, 3, "w", 0⟩], [], [], [], [], []⟩
        1 8 3 "w" none none ⟨1, .STAFF, none⟩ 5
      = .error ⟨404, "Timesheet entry not found."⟩
  ∧ edit_timesheet_form ⟨[], [], [], [], [], []⟩ 1 8 3 "w" none none ⟨1, .STAFF, none⟩ 5
      = .error ⟨404, "Timesheet entry not found."⟩ := by
  have h := C10_not_owner_reads_as_not_found
    ⟨[⟨1, 7, none, none, 8, 3, "w", 0⟩], [], [], [], [], []⟩
    1 8 3 "w" none none ⟨1, .STAFF, none⟩ 5 ⟨1, 7, none, none, 8, 3, "w", 0⟩
    (by rfl) (by decide)
  exact ⟨h.1, h.2 ⟨[], [], [], [], [], []⟩ (by rfl)⟩


/-- A failed lookup continues into the appended suffix. -/
theorem find?_append_of_none {α : Type} (p : α → Bool) (l₁ l₂ : List α)
    (h : l₁.find? p = none) : (l₁ ++ l₂).find? p = l₂.find? p := by
  induction l₁ with
  | nil => rfl
  | cons x xs ih =>
    by_cases hx : p x
    · simp [List.find?_cons, hx] at h
    · have h' : xs.find? p = none := by simpa [List.find?_cons, hx] using h
      simpa [List.find?_cons, hx] using ih h'

/-- Replacing the found row with a row still matching the query makes the
lookup return the replacement. -/
theorem find?_replaceFirst {α : Type} (p : α → Bool) (a : α) (l : List α) (x : α)
    (h : l.find? p = some x) (ha : p a = true) :
    (replaceFirst p a l).find? p = some a := by
  induction l with
  | nil => simp [List.find?] at h
  | cons y ys ih =>
    by_cases hy : p y
    · simp [replaceFirst, hy, List.find?_cons, ha]
    · have h' : ys.find? p = some x := by simpa [List.find?_cons, hy] using h
      simpa [replaceFirst, hy, List.find?_cons] using ih h'

/-- C5: `submit_timesheet_week` fails (returning the approved-resubmission
error and leaving all state untouched) exactly when the week's summary exists
with status APPROVED; in every other case — including an already SUBMITTED
week — it succeeds, creating the summary row if absent, and the resulting
summary for that (user, week) has status SUBMITTED, the given note, and
`submitted_at` set to the current time. -/
theorem C5_submit_week (db : DB) (u : User) (ws : Int) (note : String) (now : Int) :
    (submit_timesheet_week db u ws note now
        = .error ⟨400, "Approved timesheets cannot be resubmitted."⟩
      ↔ ∃ s, findSummary db.summaries u.id ws = some s ∧ s.status = .APPROVED)
  ∧ (∀ db', submit_timesheet_week db u ws note now = .ok db' →
      ∃ s, findSummary db'.summaries u.id ws = some s
        ∧ s.status = .SUBMITTED ∧ s.submit_note = note ∧ s.submitted_at = some now) := by
  unfold submit_timesheet_week
  cases h : findSummary db.summaries u.id ws with
  | none =>
    have h' : db.summaries.find? (fun x => x.user_id == u.id && x.week_start == ws) = none := h
    dsimp only
    constructor
    · constructor
      · intro hbad
        exact absurd hbad (by simp)
      · rintro ⟨s, hs, -⟩
        exact absurd hs (by simp)
    · intro db' hok
      cases hok
      refine ⟨⟨u.id, ws, ws + 6, .SUBMITTED, note, "", some now, none, none⟩, ?_, rfl, rfl, rfl⟩
      unfold findSummary
      dsimp only
      rw [find?_append_of_none _ _ _ h']
      simp [List.find?_cons]
  | some s =>
    have h' : db.summaries.find? (fun x => x.user_id == u.id && x.week_start == ws) = some s := h
    have hps := List.find?_some h'
    dsimp only
    by_cases hst : s.status = .APPROVED
    · rw [if_pos hst]
      constructor
      · exact ⟨fun _ => ⟨s, rfl, hst⟩, fun _ => rfl⟩
      · intro db' hok
        exact absurd hok (by simp)
    · rw [if_neg hst]
      constructor
      · constructor
        · intro hbad
          exact absurd hbad (by simp)
        · rintro ⟨s', hs', happ⟩
          cases hs'
          exact absurd happ hst
      · intro db' hok
        cases hok
        refine ⟨{ s with status := .SUBMITTED, submit_note := note, submitted_at := some now },
          ?_, rfl, rfl, rfl⟩
        unfold findSummary
        dsimp only
        exact find?_replaceFirst _ _ _ s h' hps

/-- Witness for `C5_submit_week`: resubmitting an already SUBMITTED week. -/
theorem C5_witness :
    ∃ s, findSummary
        (⟨[], [⟨1, 8, 14, .SUBMITTED, "n", "", some 5, none, none⟩], [], [], [], []⟩ : DB).summaries
        1 8 = some s
      ∧ s.status = .SUBMITTED ∧ s.submit_note = "n" ∧ s.submitted_at = some 5 :=
  (C5_submit_week ⟨[], [⟨1, 8, 14, .SUBMITTED, "old", "", some 0, none, none⟩], [], [], [], []⟩
      ⟨1, .STAFF, none⟩ 8 "n" 5).2
    ⟨[], [⟨1, 8, 14, .SUBMITTED, "n", "", some 5, none, none⟩], [], [], [], []⟩ (by rfl)


/-- C3 (amended): for week approval, week unapproval, and leave decisions,
the authorization check succeeds exactly when the actor's role is in
{ADMIN, PROGRAMME_MANAGER, PROJECT_MANAGER} AND (the actor is ADMIN or the
actor's id equals the target's `manager_id`).  A direct manager whose own
role is STAFF is refused by the `require_roles` gate (403 "Insufficient
permissions"), refuting the original claim's "regardless of the actor's own
role" (see `C3_counterexample`). -/
theorem C3_authorization_amended
    (db : DB) (actor : User) (ws ws2 : Int) (uid uid2 : Nat) (note : String) (now : Int)
    (rid : Nat) (decision : Bool)
    (s s2 : TimesheetWeekSummary) (target target2 owner : User) (lr : LeaveRequest)
    (hs : findSummary db.summaries uid ws = some s) (hstat : s.status = .SUBMITTED)
    (ht : db.users.find? (fun x => x.id == s.user_id) = some target)
    (hs2 : findSummary db.summaries uid2 ws2 = some s2) (hstat2 : s2.status = .APPROVED)
    (ht2 : db.users.find? (fun x => x.id == s2.user_id) = some target2)
    (hlr : db.leaves.find? (fun x => x.id == rid) = some lr)
    (howner : db.users.find? (fun x => x.id == lr.user_id) = some owner) :
    (isOk (approve_timesheet_week db actor ws uid note now) = true ↔
      actor.role ∈ [Role.ADMIN, .PROGRAMME_MANAGER, .PROJECT_MANAGER]
        ∧ (actor.role = .ADMIN ∨ target.manager_id = some actor.id))
  ∧ (isOk (unapprove_timesheet_week db actor ws2 uid2 note) = true ↔
      actor.role ∈ [Role.ADMIN, .PROGRAMME_MANAGER, .PROJECT_MANAGER]
        ∧ (actor.role = .ADMIN ∨ target2.manager_id = some actor.id))
  ∧ (isOk (decide_leave db rid decision actor) = true ↔
      actor.role ∈ [Role.ADMIN, .PROGRAMME_MANAGER, .PROJECT_MANAGER]
        ∧ (actor.role = .ADMIN ∨ owner.manager_id = some actor.id)) := by
  refine ⟨?_, ?_, ?_⟩
  · unfold approve_timesheet_week require_roles
    by_cases hrole : actor.role ∈ [Role.ADMIN, .PROGRAMME_MANAGER, .PROJECT_MANAGER]
    · rw [if_pos hrole]
      dsimp only
      rw [hs]
      dsimp only
      rw [if_neg (by simp [hstat])]
      rw [ht]
      dsimp only
      by_cases hcond : actor.role ≠ .ADMIN ∧ target.manager_id ≠ some actor.id
      · rw [if_pos hcond]
        simp only [isOk]
        constructor
        · intro hbad
          exact absurd hbad (by simp)
        · rintro ⟨-, hA | hm⟩
          · exact absurd hA hcond.1
          · exact absurd hm hcond.2
      · rw [if_neg hcond]
        simp only [isOk, true_iff]
        refine ⟨hrole, ?_⟩
        by_cases hA : actor.role = .ADMIN
        · exact Or.inl hA
        · refine Or.inr ?_
          by_contra hm
          exact hcond ⟨hA, hm⟩
    · rw [if_neg hrole]
      simp only [isOk]
      constructor
      · intro hbad
        exact absurd hbad (by simp)
      · rintro ⟨hmem, -⟩
        exact absurd hmem hrole
  · unfold unapprove_timesheet_week require_roles
    by_cases hrole : actor.role ∈ [Role.ADMIN, .PROGRAMME_MANAGER, .PROJECT_MANAGER]
    · rw [if_pos hrole]
      dsimp only
      rw [hs2]
      dsimp only
      rw [if_neg (by simp [hstat2])]
      rw [ht2]
      dsimp only
      by_cases hcond : actor.role ≠ .ADMIN ∧ target2.manager_id ≠ some actor.id
      · rw [if_pos hcond]
        simp only [isOk]
        constructor
        · intro hbad
          exact absurd hbad (by simp)
        · rintro ⟨-, hA | hm⟩
          · exact absurd hA hcond.1
          · exact absurd hm hcond.2
      · rw [if_neg hcond]
        simp only [isOk, true_iff]
        refine ⟨hrole, ?_⟩
        by_cases hA : actor.role = .ADMIN
        · exact Or.inl hA
        · refine Or.inr ?_
          by_contra hm
          exact hcond ⟨hA, hm⟩
    · rw [if_neg hrole]
      simp only [isOk]
      constructor
      · intro hbad
        exact absurd hbad (by simp)
      · rintro ⟨hmem, -⟩
        exact absurd hmem hrole
  · unfold decide_leave require_roles
    by_cases hrole : actor.role ∈ [Role.ADMIN, .PROGRAMME_MANAGER, .PROJECT_MANAGER]
    · rw [if_pos hrole]
      dsimp only
      rw [hlr]
      dsimp only
      rw [howner]
      dsimp only
      by_cases hcond : actor.role ≠ .ADMIN ∧ owner.manager_id ≠ some actor.id
      · rw [if_pos hcond]
        simp only [isOk]
        constructor
        · intro hbad
          exact absurd hbad (by simp)
        · rintro ⟨-, hA | hm⟩
          · exact absurd hA hcond.1
          · exact absurd hm hcond.2
      · rw [if_neg hcond]
        simp only [isOk, true_iff]
        refine ⟨hrole, ?_⟩
        by_cases hA : actor.role = .ADMIN
        · exact Or.inl hA
        · refine Or.inr ?_
          by_contra hm
          exact hcond ⟨hA, hm⟩
    · rw [if_neg hrole]
      simp only [isOk]
      constructor
      · intro hbad
        exact absurd hbad (by simp)
      · rintro ⟨hmem, -⟩
        exact absurd hmem hrole

/-- C3 counterexample: user 5 is the direct manager of user 7
(`manager_id = some 5`), yet with role STAFF their approval request is
refused with 403 "Insufficient permissions" by the role gate — the claim
that a direct manager is authorized regardless of role is false. -/
theorem C3_counterexample :
    approve_timesheet_week
        ⟨[], [⟨7, 8, 14, .SUBMITTED, "", "", some 0, none, none⟩], [], [],
          [⟨7, .STAFF, some 5⟩], []⟩
        ⟨5, .STAFF, none⟩ 8 7 "" 0
      = .error ⟨403, "Insufficient permissions"⟩
  ∧ (⟨7, .STAFF, some 5⟩ : User).manager_id = some (⟨5, .STAFF, none⟩ : User).id := by
  exact ⟨by rfl, rfl⟩

/-- Witness for `C3_authorization_amended`: a PROJECT_MANAGER direct manager
is authorized. -/
theorem C3_witness :
    isOk (approve_timesheet_week
        ⟨[], [⟨7, 8, 14, .SUBMITTED, "", "", some 0, none, none⟩,
              ⟨7, 15, 21, .APPROVED, "", "", some 0, some 0, some 5⟩],
          [], [], [⟨7, .STAFF, some 5⟩], [⟨3, 7, 0, 1, "", .PENDING, none⟩]⟩
        ⟨5, .PROJECT_MANAGER, none⟩ 8 7 "" 0) = true :=
  ((C3_authorization_amended
      ⟨[], [⟨7, 8, 14, .SUBMITTED, "", "", some 0, none, none⟩,
            ⟨7, 15, 21, .APPROVED, "", "", some 0, some 0, some 5⟩],
        [], [], [⟨7, .STAFF, some 5⟩], [⟨3, 7, 0, 1, "", .PENDING, none⟩]⟩
      ⟨5, .PROJECT_MANAGER, none⟩ 8 15 7 7 "" 0 3 true
      ⟨7, 8, 14, .SUBMITTED, "", "", some 0, none, none⟩
      ⟨7, 15, 21, .APPROVED, "", "", some 0, some 0, some 5⟩
      ⟨7, .STAFF, some 5⟩ ⟨7, .STAFF, some 5⟩ ⟨7, .STAFF, some 5⟩
      ⟨3, 7, 0, 1, "", .PENDING, none⟩
      (by rfl) rfl (by rfl) (by rfl) rfl (by rfl) (by rfl) (by rfl)).1).mpr
    ⟨by decide, Or.inr rfl⟩


set_option maxHeartbeats 1000000 in
/-- C9: a successful `edit_timesheet_form` appends to the audit log exactly
one "edited" row per field among entry_date, hours, description, project_id,
task_id whose incoming value differs from the stored one — carrying the
string-serialized old and new values, with an absent optional project/task
reference serialized as the empty string — and no row for any unchanged
field; pre-existing audit rows are preserved.  In particular an edit changing
only the description yields exactly one row, with field_name
"description". -/
theorem C9_audit_rows_per_changed_field
    (db : DB) (entry_id : Nat) (d : Int) (hours : ℚ) (desc : String)
    (pid tid : Option Nat) (u : User) (now : Int) (entry : TimesheetEntry) (db' : DB)
    (hfind : db.entries.find? (fun e => e.id == entry_id) = some entry)
    (howner : entry.user_id = u.id)
    (hok : edit_timesheet_form db entry_id d hours desc pid tid u now = .ok db') :
    db'.audits = db.audits ++ db'.audits.drop db.audits.length
  ∧ (∀ r ∈ db'.audits.drop db.audits.length,
        r.action = "edited" ∧ r.entry_id = entry.id ∧ r.actor_id = u.id
      ∧ r.field_name ∈ ["entry_date", "hours", "description", "project_id", "task_id"])
  ∧ (db'.audits.drop db.audits.length).filter (fun r => r.field_name == "entry_date")
      = (if entry.entry_date = d then []
         else [⟨entry.id, u.id, "edited", "entry_date", showDate entry.entry_date, showDate d⟩])
  ∧ (db'.audits.drop db.audits.length).filter (fun r => r.field_name == "hours")
      = (if entry.hours = hours then []
         else [⟨entry.id, u.id, "edited", "hours", showHours entry.hours, showHours hours⟩])
  ∧ (db'.audits.drop db.audits.length).filter (fun r => r.field_name == "description")
      = (if entry.description = desc then []
         else [⟨entry.id, u.id, "edited", "description", entry.description, desc⟩])
  ∧ (db'.audits.drop db.audits.length).filter (fun r => r.field_name == "project_id")
      = (if entry.project_id = pid then []
         else [⟨entry.id, u.id, "edited", "project_id", showOptId entry.project_id, showOptId pid⟩])
  ∧ (db'.audits.drop db.audits.length).filter (fun r => r.field_name == "task_id")
      = (if entry.task_id = tid then []
         else [⟨entry.id, u.id, "edited", "task_id", showOptId entry.task_id, showOptId tid⟩])
  ∧ showOptId none = "" := by
  unfold edit_timesheet_form at hok
  rw [hfind] at hok
  dsimp only at hok
  rw [if_neg (by simp [howner])] at hok
  by_cases hg1 : summaryApproved
      (findSummary db.summaries u.id (week_bounds entry.entry_date).1) = true
  · rw [if_pos hg1] at hok
    exact absurd hok (by simp)
  · rw [if_neg hg1] at hok
    by_cases hdest : (if (week_bounds d).1 = (week_bounds entry.entry_date).1 then false
        else summaryApproved (findSummary db.summaries u.id (week_bounds d).1)) = true
    · rw [if_pos hdest] at hok
      exact absurd hok (by simp)
    · rw [if_neg hdest] at hok
      cases hok
      dsimp only
      by_cases h1 : entry.entry_date = d <;> by_cases h2 : entry.hours = hours <;>
        by_cases h3 : entry.description = desc <;> by_cases h4 : entry.project_id = pid <;>
        by_cases h5 : entry.task_id = tid <;>
        simp +decide [h1, h2, h3, h4, h5, showOptId, List.drop_left, howner]


/-- Witness for `C9_audit_rows_per_changed_field`: a description-only edit
emits exactly the one description row. -/
theorem C9_witness :
    ([⟨1, 1, "edited", "description", "old", "new"⟩] : List TimesheetEntryAudit).filter
        (fun r => r.field_name == "description")
      = [⟨1, 1, "edited", "description", "old", "new"⟩] :=
  (C9_audit_rows_per_changed_field
      ⟨[⟨1, 1, none, none, 8, 3, "old", 0⟩], [], [], [], [⟨1, .STAFF, none⟩], []⟩
      1 8 3 "new" none none ⟨1, .STAFF, none⟩ 5 ⟨1, 1, none, none, 8, 3, "old", 0⟩
      ⟨[⟨1, 1, none, none, 8, 3, "new", 5⟩], [], [],
        [⟨1, 1, "edited", "description", "old", "new"⟩], [⟨1, .STAFF, none⟩], []⟩
      (by rfl) rfl (by rfl)).2.2.2.2.1

end FMT
